import Mathlib

/-!
Verification of the asynchronous accessibility-scan job pipeline:
queue worker (`src/lib/queue/worker-improved.ts`), job-status API
(`src/pages/api/scan/status.ts`), fix suggester (`src/lib/openai.ts`)
and the submission gateway.

Effectful collaborators (network fetch, the axe-core detector, the
OpenAI suggester, the BullMQ queue) are modelled by explicit outcome
values supplied through an environment record; the worker pipeline is
embedded as a pure function over that environment, returning the
ordered list of progress updates it issued, the final process-global
window and document bindings, and the job outcome.
-/

namespace Scanner

/-! ## Data model: violations and summaries (worker-improved.ts lines 147-154, 186-198) -/

/-- A raw violation as returned by the detector (axe-core): `impact`
may be absent (`violation.impact` may be null/empty in JS, mapped by
`violation.impact` defaulted when absent). -/
structure RawViolation where
  id : String
  impact : Option String
  description : String
  help : String
  helpUrl : String
  nodes : Nat
  deriving Repr, DecidableEq

/-- A formatted violation as produced by the worker (step 5 of the
pipeline): `impact` defaulted to "unknown". -/
structure Violation where
  id : String
  impact : String
  description : String
  help : String
  helpUrl : String
  nodes : Nat
  deriving Repr, DecidableEq

/-- The JS default `impact or unknown`: falsy values (null / empty
string) become "unknown". -/
def defaultImpact : Option String → String
  | none => "unknown"
  | some s => if s = "" then "unknown" else s

/-- Step 5 of the pipeline: format one raw violation. -/
def formatViolation (r : RawViolation) : Violation :=
  { id := r.id
    impact := defaultImpact r.impact
    description := r.description
    help := r.help
    helpUrl := r.helpUrl
    nodes := r.nodes }

/-- Derived summary counts (worker-improved.ts lines 191-197). -/
structure Summary where
  total : Nat
  critical : Nat
  serious : Nat
  moderate : Nat
  minor : Nat
  deriving Repr, DecidableEq

/-- Assemble the summary exactly as the worker does: `total` is the
length of the violations list and each bucket is a `filter ∘ length`
over the impact label. -/
def mkSummary (vs : List Violation) : Summary :=
  { total := vs.length
    critical := (vs.filter (fun v => v.impact = "critical")).length
    serious := (vs.filter (fun v => v.impact = "serious")).length
    moderate := (vs.filter (fun v => v.impact = "moderate")).length
    minor := (vs.filter (fun v => v.impact = "minor")).length }

/-- The assembled scan result (`ScanJobResult` in scanQueue.ts):
`aiFixes` is `null` or a string, modelled as `Option String`. -/
structure ScanJobResult where
  violations : List Violation
  url : String
  timestamp : String
  aiFixes : Option String
  summary : Summary
  deriving Repr, DecidableEq

/-! ## Worker pipeline (worker-improved.ts, `processScansWithTimeout` lines 72-207,
`processScanJob` lines 48-69, `createTimeoutPromise` lines 39-45) -/

/-- Outcome of the `fetch(url, ...)` call: a 2xx body, a non-2xx
response (worker throws `HTTP status: statusText`), or a rejection
(network error or the 30s `AbortSignal.timeout` abort). -/
inductive FetchOutcome where
  | ok (html : String)
  | httpError (status : Nat) (statusText : String)
  | networkError (msg : String)
  deriving Repr, DecidableEq

/-- The process-global `window` and `document` bindings, as abstract
handles. -/
structure GlobalCtx where
  window : Nat
  document : Nat
  deriving Repr, DecidableEq

/-- Environment fixing the outcomes of the effectful collaborators for
one invocation of the per-job pipeline. `elapsedMs` is the wall time
the pipeline would take, used by the `Promise.race` against the
whole-job timeout. -/
structure PipelineEnv where
  fetch : FetchOutcome
  domWindow : Nat
  domDocument : Nat
  detect : Except String (List RawViolation)
  suggest : Except String String
  timestamp : String
  elapsedMs : Nat
  deriving Repr

/-- Placeholder substituted when the fix-suggestion call throws
(worker-improved.ts line 174). -/
def aiUnavailablePlaceholder : String :=
  "**⚠️ AI Service Temporarily Unavailable**\n\nAI-powered fixes are temporarily unavailable due to a service error. Please refer to the help links in the violations table above for guidance on fixing these accessibility issues."

/-- Steps 2-5 of the pipeline (worker-improved.ts lines 101-161): save
the global window/document, install the simulated DOM environment, run
the detector, and restore the saved globals in the `finally` block on
both the success and the failure path. -/
def detectStep (env : PipelineEnv) (g : GlobalCtx) :
    Except String (List Violation) × GlobalCtx :=
  let originalWindow := g.window
  let originalDocument := g.document
  let _installed : GlobalCtx := { window := env.domWindow, document := env.domDocument }
  match env.detect with
  | .error e =>
      (.error e, { window := originalWindow, document := originalDocument })
  | .ok raws =>
      (.ok (raws.map formatViolation),
       { window := originalWindow, document := originalDocument })

/-- Result of one invocation of `processScansWithTimeout`: the ordered
progress updates issued to the queue, the final global bindings, and
the outcome. -/
structure PipelineOut where
  progressTrace : List Nat
  globals : GlobalCtx
  outcome : Except String ScanJobResult
  deriving Repr

/-- `processScansWithTimeout` (worker-improved.ts lines 72-207):
progress 10, 20; fetch (non-2xx throws `HTTP status: statusText`);
progress 40; detect step with global save/restore; progress 80;
conditional fix-suggestion step whose failure is downgraded to a
placeholder; progress 100; assemble the result. Progress 60 is issued
inside the try block before the detector runs. -/
def processScansWithTimeout (env : PipelineEnv) (url : String)
    (includeAIFixes : Bool) (g : GlobalCtx) : PipelineOut :=
  match env.fetch with
  | .httpError status statusText =>
      { progressTrace := [10, 20], globals := g,
        outcome := .error ("HTTP " ++ toString status ++ ": " ++ statusText) }
  | .networkError msg =>
      { progressTrace := [10, 20], globals := g, outcome := .error msg }
  | .ok _html =>
      match detectStep env g with
      | (.error e, g2) =>
          { progressTrace := [10, 20, 40, 60], globals := g2, outcome := .error e }
      | (.ok vs, g2) =>
          let aiFixes : Option String :=
            if includeAIFixes ∧ vs.length > 0 then
              match env.suggest with
              | .ok s => some s
              | .error _ => some aiUnavailablePlaceholder
            else none
          { progressTrace := [10, 20, 40, 60, 80, 100], globals := g2,
            outcome := .ok
              { violations := vs
                url := url
                timestamp := env.timestamp
                aiFixes := aiFixes
                summary := mkSummary vs } }

/-- Whole-job ceiling (worker-improved.ts line 55). -/
def jobTimeoutMs : Nat := 120000

/-- Per-fetch timeout (worker-improved.ts line 87, `AbortSignal.timeout`). -/
def fetchTimeoutMs : Nat := 30000

/-- Rejection message of `createTimeoutPromise` (worker-improved.ts line 42). -/
def jobTimeoutReason (jobId : String) : String :=
  "Job " ++ jobId ++ " timed out after " ++ toString jobTimeoutMs ++ "ms"

/-- Message of the abort error raised when `AbortSignal.timeout(30000)`
fires inside `fetch`. -/
def fetchTimeoutReason : String := "The operation was aborted due to timeout"

/-- The error message the pipeline throws when the fetch of the target
URL fails (worker-improved.ts lines 90-92): `HTTP status: statusText`
for a non-2xx response, and the rejection message itself for a network
error. The `.ok` arm is never consulted. -/
def fetchErrorMsg : FetchOutcome → String
  | .ok _ => ""
  | .httpError status statusText => "HTTP " ++ toString status ++ ": " ++ statusText
  | .networkError msg => msg

/-- `processScanJob` (worker-improved.ts lines 48-69): race the
pipeline against the 120s whole-job timeout; any rejection is
re-thrown as `Failed to scan URL: message`. -/
def processScanJob (env : PipelineEnv) (jobId : String) (url : String)
    (includeAIFixes : Bool) (g : GlobalCtx) : Except String ScanJobResult :=
  if env.elapsedMs ≥ jobTimeoutMs then
    .error ("Failed to scan URL: " ++ jobTimeoutReason jobId)
  else
    match (processScansWithTimeout env url includeAIFixes g).outcome with
    | .ok r => .ok r
    | .error e => .error ("Failed to scan URL: " ++ e)

/-! ## Fix suggester (src/lib/openai.ts, `generateFixes` lines 12-50) -/

/-- Early return for an absent or empty violations list (openai.ts line 14). -/
def noViolationsMsg : String :=
  "No accessibility violations found! Your website is doing great."

/-- Fallback when the completion content is absent or blank (openai.ts line 45). -/
def emptyCompletionFallback : String := "Unable to generate fixes at this time."

/-- Fallback returned from the catch-all handler (openai.ts line 48). -/
def apiErrorFallback : String :=
  "Unable to generate AI-powered fixes at this time. Please check your OpenAI API configuration."

/-- `generateFixes` (openai.ts lines 12-50). The provider call is
modelled by its outcome: a thrown error, or a completion whose message
content may be absent. The function catches every provider error and
always returns a string. -/
def generateFixes (violations : Option (List Violation))
    (provider : Except String (Option String)) : String :=
  match violations with
  | none => noViolationsMsg
  | some vs =>
    if vs.length = 0 then noViolationsMsg
    else
      match provider with
      | .error _ => apiErrorFallback
      | .ok none => emptyCompletionFallback
      | .ok (some content) =>
          if content.trim = "" then emptyCompletionFallback else content.trim

/-! ## Queue retry policy (scanQueue.ts `defaultJobOptions` lines 560-568) -/

/-- Maximum attempts per job (scanQueue.ts `attempts: 3`). -/
def maxAttempts : Nat := 3

/-- Exponential backoff base delay in ms (scanQueue.ts `delay: 2000`). -/
def backoffBaseMs : Nat := 2000

/-- Exponential backoff: delay before re-offering a job that has
failed `attempt` times is base × 2^(attempt-1). -/
def backoffDelay (base attempt : Nat) : Nat := base * 2 ^ (attempt - 1)

/-- Terminal state of a job after the queue has finished with it. -/
inductive JobTerminal where
  | completed (r : ScanJobResult)
  | failed (reason : String)
  deriving Repr, DecidableEq

/-- Modelled from the spec: the retry machinery itself lives in the
external queue library (BullMQ) and is not source of this repository;
spec §4.2 fixes its contract: on unhandled worker exception the queue
re-offers the job up to the configured maximum attempt count with
exponential backoff (base delay × 2^(attempt-1)) between attempts, and
after exhausting attempts the job transitions to Failed with the last
failure reason recorded. `outcome i` is the worker outcome of attempt
`i` (1-based); the returned list holds the backoff delays inserted
between consecutive attempts. -/
def runWithRetries (outcome : Nat → Except String ScanJobResult) :
    Nat → Nat → JobTerminal × List Nat
  | _, 0 => (.failed "no attempts configured", [])
  | attempt, remaining + 1 =>
    match outcome attempt with
    | .ok r => (.completed r, [])
    | .error e =>
      if remaining = 0 then (.failed e, [])
      else
        let rest := runWithRetries outcome (attempt + 1) remaining
        (rest.1, backoffDelay backoffBaseMs attempt :: rest.2)

/-- A job run through the queue with the configured retry policy:
attempt `i` executes the worker entry point against environment
`envs i`. -/
def runJobThroughQueue (envs : Nat → PipelineEnv) (jobId url : String)
    (includeAIFixes : Bool) (g : GlobalCtx) : JobTerminal × List Nat :=
  runWithRetries (fun i => processScanJob (envs i) jobId url includeAIFixes g) 1 maxAttempts

/-! ## Job status lookup (scanQueue.ts `getJob` lines 647-666,
`mapBullStateToJobStatus` lines 669-686; src/pages/api/scan/status.ts) -/

/-- Job states (`JobStatus` enum, scanQueue.ts lines 572-579). -/
inductive JobStatus where
  | waiting
  | active
  | completed
  | failed
  | delayed
  | paused
  deriving Repr, DecidableEq

/-- `mapBullStateToJobStatus` (scanQueue.ts lines 669-686): unknown
states default to waiting. -/
def mapBullStateToJobStatus : String → JobStatus
  | "waiting" => .waiting
  | "delayed" => .delayed
  | "active" => .active
  | "completed" => .completed
  | "failed" => .failed
  | "paused" => .paused
  | _ => .waiting

/-- The queue-side record of a job as the backing store holds it:
BullMQ state string, recorded progress, return value of a completed
run, and the failure reason of a failed one. -/
structure BullJob where
  state : String
  progress : Nat
  returnvalue : Option ScanJobResult
  failedReason : Option String
  deriving Repr, DecidableEq

/-- The projection `getJob` builds (scanQueue.ts lines 647-666). -/
structure JobView where
  id : String
  status : JobStatus
  progress : Nat
  result : Option ScanJobResult
  error : Option String
  deriving Repr, DecidableEq

/-- `getJob` (scanQueue.ts lines 647-666): `Job.fromId` against the
backing store, mapped through `mapBullStateToJobStatus`; absent job
gives null. -/
def getJob (store : List (String × BullJob)) (jobId : String) : Option JobView :=
  match store.lookup jobId with
  | none => none
  | some j =>
      some { id := jobId
             status := mapBullStateToJobStatus j.state
             progress := j.progress
             result := j.returnvalue
             error := j.failedReason }

/-- HTTP response of the status endpoint: only the fields the handler
sets are present. -/
structure StatusResponse where
  code : Nat
  status : Option JobStatus := none
  progress : Option Nat := none
  result : Option ScanJobResult := none
  error : Option String := none
  deriving Repr, DecidableEq

/-- `GET /api/scan/status` handler (src/pages/api/scan/status.ts lines
4-51). The store is threaded through unchanged: the handler only reads
it. -/
def statusHandler (method : String) (jobId : Option String)
    (store : List (String × BullJob)) :
    StatusResponse × List (String × BullJob) :=
  if method ≠ "GET" then
    ({ code := 405, error := some "Method not allowed" }, store)
  else
    match jobId with
    | none => ({ code := 400, error := some "Job ID is required" }, store)
    | some j =>
      match getJob store j with
      | none => ({ code := 404, error := some "Job not found" }, store)
      | some jv =>
        if jv.status = .completed then
          ({ code := 200, status := some jv.status, progress := some 100,
             result := jv.result }, store)
        else if jv.status = .failed then
          ({ code := 200, status := some jv.status, progress := some 0,
             error := jv.error }, store)
        else
          ({ code := 200, status := some jv.status,
             progress := some jv.progress }, store)

/-! ## Synchronous scan endpoint (src/pages/api/scan.ts lines 5-113) -/

/-- `POST /api/scan` synchronous handler (src/pages/api/scan.ts),
reduced to the observables the isolation contract is about: the HTTP
status code and the final process-global window/document bindings.
The handler saves the globals before the inner try block, installs the
JSDOM window/document, and restores the saved values in the `finally`
block on both the success (200) and the failure (500) path; a fetch
failure occurs before the globals are touched. -/
def apiScanHandler (method : String) (url : Option String)
    (fetch : FetchOutcome) (domWindow domDocument : Nat)
    (detect : Except String (List RawViolation)) (g : GlobalCtx) :
    Nat × GlobalCtx :=
  if method ≠ "POST" then (405, g)
  else
    match url with
    | none => (400, g)
    | some _ =>
      match fetch with
      | .httpError _ _ => (500, g)
      | .networkError _ => (500, g)
      | .ok _ =>
        let originalWindow := g.window
        let originalDocument := g.document
        let _installed : GlobalCtx := { window := domWindow, document := domDocument }
        match detect with
        | .error _ =>
            (500, { window := originalWindow, document := originalDocument })
        | .ok _ =>
            (200, { window := originalWindow, document := originalDocument })

/-! ## Submission gateway (queue-backed `POST /api/scan`) -/

/-- A job as enqueued by the gateway (`ScanJobData`, scanQueue.ts
lines 535-540). -/
structure SubmittedJob where
  url : String
  includeAIFixes : Bool
  clientIP : String
  timestamp : Nat
  deriving Repr, DecidableEq

/-- Gateway state: per-identity time of the last accepted submission,
and the queue of enqueued jobs. -/
structure GatewayState where
  lastAccepted : List (String × Nat)
  jobs : List SubmittedJob
  deriving Repr, DecidableEq

/-- Gateway response to a submission. -/
inductive SubmitResponse where
  | accepted (jobId : String)
  | rateLimited (error : String)
  | badRequest (error : String)
  deriving Repr, DecidableEq

/-- Conceptual HTTP status of a submission response. -/
def SubmitResponse.code : SubmitResponse → Nat
  | .accepted _ => 202
  | .rateLimited _ => 429
  | .badRequest _ => 400

/-- Rolling rate-limit window (spec §4.1: 60 seconds). -/
def rateLimitWindowMs : Nat := 60000

/-- Modelled from the spec: the queue-backed submission handler of the
gateway is absent from src/ (only its test suite
`src/__tests__/api/scan.test.ts` exercises it, through mocks of
`addScanJob`); modelled from spec §4.1 and the observable contract of
the tests. The rate limiter accepts at most one submission per
`submitterIdentity` (client IP) per rolling 60-second window, realised
as "time since last accepted submission from this identity ≥ 60s"; a
submission inside the window returns RateLimitError (HTTP 429, body
error `Too many scan requests—please wait a minute.`) without
enqueuing; the limiter is consulted before URL validation; on
acceptance a ScanJob is enqueued and its jobId returned (HTTP 202). -/
def submitScan (st : GatewayState) (clientIP : String) (now : Nat)
    (url : Option String) (includeAIFixes : Bool) :
    SubmitResponse × GatewayState :=
  let withinWindow : Bool :=
    match st.lastAccepted.lookup clientIP with
    | some t => decide (now < t + rateLimitWindowMs)
    | none => false
  if withinWindow then
    (.rateLimited "Too many scan requests—please wait a minute.", st)
  else
    match url with
    | none => (.badRequest "Missing URL in request body", st)
    | some u =>
      let jobId := "job-" ++ toString st.jobs.length
      (.accepted jobId,
       { lastAccepted := (clientIP, now) :: st.lastAccepted
         jobs := st.jobs ++
           [{ url := u, includeAIFixes := includeAIFixes,
              clientIP := clientIP, timestamp := now }] })

/-! ## Concrete sample inputs used by witnesses and counterexamples -/

/-- A sample raw violation (scenario B of the spec test list). -/
def sampleRaw : RawViolation :=
  { id := "color-contrast", impact := some "serious",
    description := "Elements must have sufficient color contrast",
    help := "help", helpUrl := "https://example.com/help", nodes := 2 }

/-- Sample global bindings held before a job runs. -/
def sampleG : GlobalCtx := { window := 7, document := 8 }

/-- A pipeline environment for a fully successful scan with one
violation and a working suggester. -/
def sampleEnv : PipelineEnv :=
  { fetch := .ok "<html></html>", domWindow := 1, domDocument := 2,
    detect := .ok [sampleRaw], suggest := .ok "fix text",
    timestamp := "2025-01-01T00:00:00.000Z", elapsedMs := 5000 }

/-- A pipeline environment whose fetch returns HTTP 404. -/
def env404 : PipelineEnv :=
  { fetch := .httpError 404 "Not Found", domWindow := 1, domDocument := 2,
    detect := .ok [sampleRaw], suggest := .ok "fix text",
    timestamp := "2025-01-01T00:00:00.000Z", elapsedMs := 5000 }

/-- A pipeline environment whose suggester throws. -/
def envSuggestFail : PipelineEnv :=
  { fetch := .ok "<html></html>", domWindow := 1, domDocument := 2,
    detect := .ok [sampleRaw], suggest := .error "quota exceeded",
    timestamp := "2025-01-01T00:00:00.000Z", elapsedMs := 5000 }

/-- A pipeline environment whose wall time exceeds the whole-job
ceiling. -/
def envTimeout : PipelineEnv :=
  { fetch := .ok "<html></html>", domWindow := 1, domDocument := 2,
    detect := .ok [sampleRaw], suggest := .ok "fix text",
    timestamp := "2025-01-01T00:00:00.000Z", elapsedMs := 150000 }

/-- A sample queue-side record of a completed job. -/
def sampleBullCompleted : BullJob :=
  { state := "completed", progress := 100,
    returnvalue := some
      { violations := [formatViolation sampleRaw], url := "https://example.com",
        timestamp := "2025-01-01T00:00:00.000Z", aiFixes := some "fix text",
        summary := mkSummary [formatViolation sampleRaw] },
    failedReason := none }

/-! ## Helper lemmas -/

/-- The four labelled buckets sum to at most the list length, since the
impact labels are pairwise distinct strings. -/
theorem summary_buckets_le_total (vs : List Violation) :
    (mkSummary vs).critical + (mkSummary vs).serious +
      (mkSummary vs).moderate + (mkSummary vs).minor ≤ (mkSummary vs).total := by
  simp only [mkSummary]
  induction vs with
  | nil => simp
  | cons v t ih =>
    simp only [List.filter_cons, List.length_cons]
    by_cases hc : v.impact = "critical" <;>
      by_cases hs : v.impact = "serious" <;>
        by_cases hm : v.impact = "moderate" <;>
          by_cases hn : v.impact = "minor" <;>
            simp_all <;> omega

/-- A string sandwiched between two others occurs in the
concatenation. -/
theorem middle_toList_infix (pre mid post : String) :
    mid.toList <:+: (pre ++ mid ++ post).toList := by
  refine ⟨pre.toList, post.toList, ?_⟩
  show _ = ((pre ++ mid) ++ post).data
  rw [String.data_append, String.data_append]
  rfl

/-! ## Claims -/

/-- C1: for every completed scan job, the assembled result has
`summary.total` equal to the length of the violations list, each
labelled bucket equal to the count of violations with that impact, and
`critical + serious + moderate + minor ≤ total` (an unknown impact
bucket is possible). -/
theorem C1_summary_invariant (env : PipelineEnv) (url : String)
    (includeAIFixes : Bool) (g : GlobalCtx) (r : ScanJobResult)
    (h : (processScansWithTimeout env url includeAIFixes g).outcome = .ok r) :
    r.summary.total = r.violations.length ∧
    r.summary.critical = (r.violations.filter (fun v => v.impact = "critical")).length ∧
    r.summary.serious = (r.violations.filter (fun v => v.impact = "serious")).length ∧
    r.summary.moderate = (r.violations.filter (fun v => v.impact = "moderate")).length ∧
    r.summary.minor = (r.violations.filter (fun v => v.impact = "minor")).length ∧
    r.summary.critical + r.summary.serious + r.summary.moderate + r.summary.minor ≤
      r.summary.total := by
  have hsum : r.summary = mkSummary r.violations := by
    cases hf : env.fetch <;> rw [processScansWithTimeout] at h <;> simp [hf] at h
    rcases hd : detectStep env g with ⟨res, g2⟩
    rw [hd] at h
    cases res with
    | error e => simp at h
    | ok vs =>
        simp at h
        rw [← h]
  refine ⟨?_, ?_, ?_, ?_, ?_, ?_⟩ <;> rw [hsum]
  · rfl
  · rfl
  · rfl
  · rfl
  · rfl
  · exact summary_buckets_le_total r.violations

/-- Witness for C1 at a concrete successful scan. -/
theorem C1_summary_invariant_witness :
    ∃ r, (processScansWithTimeout sampleEnv "https://example.com" true sampleG).outcome =
        .ok r ∧
      r.summary.total = r.violations.length ∧
      r.summary.critical + r.summary.serious + r.summary.moderate + r.summary.minor ≤
        r.summary.total := by
  refine ⟨_, rfl, ?_, ?_⟩
  · exact (C1_summary_invariant sampleEnv "https://example.com" true sampleG _ rfl).1
  · exact (C1_summary_invariant sampleEnv "https://example.com" true sampleG _ rfl).2.2.2.2.2

/-- C8: on both the success and the failure path of the detection
step, the process-global window and document bindings are restored to
exactly the values they held before the job installed its simulated
DOM environment — for the queue worker pipeline and for the
synchronous scan endpoint alike. -/
theorem C8_globals_restored (env : PipelineEnv) (url : String)
    (includeAIFixes : Bool) (g : GlobalCtx) (method : String) (u2 : Option String)
    (f2 : FetchOutcome) (dw dd : Nat) (d2 : Except String (List RawViolation)) :
    (processScansWithTimeout env url includeAIFixes g).globals = g ∧
    (apiScanHandler method u2 f2 dw dd d2 g).2 = g := by
  constructor
  · cases hf : env.fetch <;>
      simp [processScansWithTimeout, detectStep, hf] <;>
        cases env.detect <;> simp
  · unfold apiScanHandler
    by_cases hm : method = "POST" <;> simp [hm] <;>
      cases u2 <;> simp <;> cases f2 <;> simp <;> cases d2 <;> simp

/-- C5 fails as stated: a job whose fetch returns HTTP 404 reports
only the progress values [10, 20], not the full checkpoint sequence
[10, 20, 40, 60, 80, 100]. -/
theorem C5_counterexample :
    (processScansWithTimeout env404 "https://example.com" true sampleG).progressTrace =
        [10, 20] ∧
    (processScansWithTimeout env404 "https://example.com" true sampleG).progressTrace ≠
        [10, 20, 40, 60, 80, 100] := by
  constructor
  · rfl
  · decide

/-- C5 (amended): for every job the worker processes to completion,
the reported progress sequence is exactly the checkpoints
[10, 20, 40, 60, 80, 100] in that order; for every invocation
(including ones that fail at the fetch or detect step) the reported
sequence is a prefix of those checkpoints and is monotonically
non-decreasing — the worker never reports a lower value than
previously recorded within that invocation. -/
theorem C5_progress_checkpoints (env : PipelineEnv) (url : String)
    (includeAIFixes : Bool) (g : GlobalCtx) :
    (∀ r, (processScansWithTimeout env url includeAIFixes g).outcome = .ok r →
        (processScansWithTimeout env url includeAIFixes g).progressTrace =
          [10, 20, 40, 60, 80, 100]) ∧
    (processScansWithTimeout env url includeAIFixes g).progressTrace <+:
        [10, 20, 40, 60, 80, 100] ∧
    (processScansWithTimeout env url includeAIFixes g).progressTrace.Pairwise (· ≤ ·) := by
  cases hf : env.fetch <;> rw [processScansWithTimeout] <;> simp [hf]
  rcases hd : detectStep env g with ⟨res, g2⟩
  cases res <;> simp

/-- Witness for C5 (amended) at a concrete successful scan. -/
theorem C5_progress_checkpoints_witness :
    (processScansWithTimeout sampleEnv "https://example.com" true sampleG).progressTrace =
      [10, 20, 40, 60, 80, 100] :=
  (C5_progress_checkpoints sampleEnv "https://example.com" true sampleG).1 _ rfl

/-- C9 fails as stated: when fix suggestions are disabled
(`includeAIFixes = false`) the completed result carries
`aiFixes = null` (absent), not a placeholder string. -/
theorem C9_counterexample :
    ∃ r, (processScansWithTimeout sampleEnv "https://example.com" false sampleG).outcome =
        .ok r ∧ r.aiFixes = none :=
  ⟨_, rfl, rfl⟩

/-- C9 (amended): when the fix-suggester fails or signals quota
exhaustion for a job that requested suggestions and found at least one
violation, the completed result carries a well-defined non-empty
placeholder string; when the suggester is disabled the field is
absent (null). -/
theorem C9_placeholder_policy (env : PipelineEnv) (url : String) (g : GlobalCtx)
    (html : String) (raws : List RawViolation)
    (hf : env.fetch = .ok html) (hd : env.detect = .ok raws) :
    (∀ r, (processScansWithTimeout env url false g).outcome = .ok r →
        r.aiFixes = none) ∧
    (∀ e r, env.suggest = .error e → raws ≠ [] →
        (processScansWithTimeout env url true g).outcome = .ok r →
        r.aiFixes = some aiUnavailablePlaceholder ∧ aiUnavailablePlaceholder ≠ "") := by
  constructor
  · intro r h
    rw [processScansWithTimeout] at h
    simp [hf, detectStep, hd] at h
    rw [← h]
  · intro e r hs hne h
    rw [processScansWithTimeout] at h
    simp [hf, detectStep, hd, hs, List.length_pos, hne] at h
    subst h
    exact ⟨rfl, by decide⟩

/-- Witness for C9 (amended): a concrete job with one violation and a
throwing suggester completes with the placeholder; the same
environment with suggestions disabled completes with `aiFixes`
absent. -/
theorem C9_placeholder_policy_witness :
    (∃ r, (processScansWithTimeout envSuggestFail "https://example.com" true sampleG).outcome =
        .ok r ∧ r.aiFixes = some aiUnavailablePlaceholder) ∧
    (∃ r, (processScansWithTimeout envSuggestFail "https://example.com" false sampleG).outcome =
        .ok r ∧ r.aiFixes = none) := by
  constructor
  · refine ⟨_, rfl, ?_⟩
    exact ((C9_placeholder_policy envSuggestFail "https://example.com" sampleG
      "<html></html>" [sampleRaw] rfl rfl).2 "quota exceeded" _ rfl (by decide) rfl).1
  · refine ⟨_, rfl, ?_⟩
    exact (C9_placeholder_policy envSuggestFail "https://example.com" sampleG
      "<html></html>" [sampleRaw] rfl rfl).1 _ rfl

/-- C2: if the fix-suggester step throws for a job that requested fix
suggestions and found at least one violation, the job still completes
successfully (the worker entry point resolves with a result rather
than rejecting), and the completed result carries a non-empty
placeholder string in its fix-suggestions field. -/
theorem C2_suggester_failure_nonfatal (env : PipelineEnv) (jobId url : String)
    (g : GlobalCtx) (html : String) (raws : List RawViolation) (e : String)
    (hEl : env.elapsedMs < jobTimeoutMs) (hf : env.fetch = .ok html)
    (hd : env.detect = .ok raws) (hne : raws ≠ []) (hs : env.suggest = .error e) :
    ∃ r, processScanJob env jobId url true g = .ok r ∧
      r.aiFixes = some aiUnavailablePlaceholder ∧ aiUnavailablePlaceholder ≠ "" := by
  refine ⟨{ violations := raws.map formatViolation, url := url,
            timestamp := env.timestamp,
            aiFixes := some aiUnavailablePlaceholder,
            summary := mkSummary (raws.map formatViolation) }, ?_, rfl, by decide⟩
  rw [processScanJob, if_neg (by omega)]
  rw [processScansWithTimeout]
  simp [hf, detectStep, hd, hs, List.length_pos, hne]

/-- Witness for C2 at a concrete job whose suggester throws. -/
theorem C2_suggester_failure_nonfatal_witness :
    ∃ r, processScanJob envSuggestFail "1" "https://example.com" true sampleG = .ok r ∧
      r.aiFixes = some aiUnavailablePlaceholder ∧ aiUnavailablePlaceholder ≠ "" :=
  C2_suggester_failure_nonfatal envSuggestFail "1" "https://example.com" sampleG
    "<html></html>" [sampleRaw] "quota exceeded" (by decide) rfl rfl (by decide) rfl

/-- C10: `generateFixes` never rejects: it is a total function of the
violations list and the provider outcome, returning a non-empty string
in every case — the fixed no-violations message for an absent or empty
list, the provider text (or a fixed fallback when the completion is
blank), and a fixed fallback when the provider call throws — so a
provider error can never propagate as an exception into the worker
fix-suggestion catch branch: when the suggester resolves, the worker
records its value, never the catch placeholder. -/
theorem C10_generateFixes_total (violations : Option (List Violation))
    (provider : Except String (Option String)) :
    generateFixes violations provider ≠ "" ∧
    ((violations = none ∨ violations = some []) →
        generateFixes violations provider = noViolationsMsg) ∧
    (∀ vs e, violations = some vs → vs ≠ [] → provider = .error e →
        generateFixes violations provider = apiErrorFallback) ∧
    (∀ env : PipelineEnv, ∀ jobId url : String, ∀ g : GlobalCtx, ∀ s html : String,
      ∀ raws : List RawViolation,
        env.suggest = .ok s → env.elapsedMs < jobTimeoutMs → env.fetch = .ok html →
        env.detect = .ok raws → raws ≠ [] →
        ∃ r, processScanJob env jobId url true g = .ok r ∧ r.aiFixes = some s) := by
  refine ⟨?_, ?_, ?_, ?_⟩
  · rcases violations with _ | vs
    · simp only [generateFixes]
      decide
    · rw [generateFixes.eq_def]
      by_cases hl : vs.length = 0
      · simp [hl]
        decide
      · simp [hl]
        cases provider with
        | error e => exact (by decide : apiErrorFallback ≠ "")
        | ok oc =>
            cases oc with
            | none => exact (by decide : emptyCompletionFallback ≠ "")
            | some c =>
                by_cases ht : c.trim = ""
                · simp [ht]
                  decide
                · simp [ht]
  · rintro (h | h) <;> subst h <;> simp [generateFixes]
  · intro vs e hvs hne hp
    subst hvs
    subst hp
    simp [generateFixes, List.length_eq_zero, hne]
  · intro env jobId url g s html raws hs hEl hf hd hne
    refine ⟨{ violations := raws.map formatViolation, url := url,
              timestamp := env.timestamp, aiFixes := some s,
              summary := mkSummary (raws.map formatViolation) }, ?_, rfl⟩
    rw [processScanJob, if_neg (by omega)]
    rw [processScansWithTimeout]
    simp [hf, detectStep, hd, hs, List.length_pos, hne]

/-- Witness for C10 at concrete inputs: an empty list yields the
no-violations message, a throwing provider yields the fixed fallback,
and a resolving suggester leaves the worker catch placeholder
unused. -/
theorem C10_generateFixes_total_witness :
    generateFixes (some []) (.error "boom") = noViolationsMsg ∧
    generateFixes (some [formatViolation sampleRaw]) (.error "boom") = apiErrorFallback ∧
    (∃ r, processScanJob sampleEnv "1" "https://example.com" true sampleG = .ok r ∧
        r.aiFixes = some "fix text") := by
  refine ⟨?_, ?_, ?_⟩
  · exact (C10_generateFixes_total (some []) (.error "boom")).2.1 (Or.inr rfl)
  · exact (C10_generateFixes_total (some [formatViolation sampleRaw])
      (.error "boom")).2.2.1 _ "boom" rfl (by decide) rfl
  · exact (C10_generateFixes_total none (.ok none)).2.2.2 sampleEnv "1"
      "https://example.com" sampleG "fix text" "<html></html>" [sampleRaw]
      rfl (by decide) rfl rfl (by decide)

/-- C4: the status operation is read-only (it only reads the backing
store, which passes through unchanged) and returns NotFound (404) when
no job with the given id exists; otherwise a state-appropriate
projection: a Completed job includes its result and progress 100, a
Failed job includes its failure reason and progress 0, and a
Waiting/Active/Delayed job includes progress only. -/
theorem C4_status_readonly_projection (store : List (String × BullJob)) (j : String) :
    (statusHandler "GET" (some j) store).2 = store ∧
    (store.lookup j = none →
        (statusHandler "GET" (some j) store).1 =
          { code := 404, error := some "Job not found" }) ∧
    (∀ bj, store.lookup j = some bj →
        (mapBullStateToJobStatus bj.state = .completed →
            (statusHandler "GET" (some j) store).1 =
              { code := 200, status := some JobStatus.completed, progress := some 100,
                result := bj.returnvalue }) ∧
        (mapBullStateToJobStatus bj.state = .failed →
            (statusHandler "GET" (some j) store).1 =
              { code := 200, status := some JobStatus.failed, progress := some 0,
                error := bj.failedReason }) ∧
        ((mapBullStateToJobStatus bj.state = .waiting ∨
          mapBullStateToJobStatus bj.state = .active ∨
          mapBullStateToJobStatus bj.state = .delayed) →
            (statusHandler "GET" (some j) store).1 =
              { code := 200, status := some (mapBullStateToJobStatus bj.state),
                progress := some bj.progress })) := by
  refine ⟨?_, ?_, ?_⟩
  · rw [statusHandler]
    simp only [ne_eq, not_true_eq_false, if_false]
    rcases hg : getJob store j with _ | jv
    · rfl
    · dsimp only
      split_ifs <;> rfl
  · intro hn
    rw [statusHandler]
    simp [getJob, hn]
  · intro bj hbj
    refine ⟨?_, ?_, ?_⟩
    · intro hc
      rw [statusHandler]
      simp [getJob, hbj, hc]
    · intro hf
      rw [statusHandler]
      simp [getJob, hbj, hf]
    · rintro (hw | hw | hw) <;> rw [statusHandler] <;> simp [getJob, hbj, hw]

/-- Witness for C4: a store holding one completed job projects to a
200 response with its result and progress 100, and an unknown id gives
404. -/
theorem C4_status_readonly_projection_witness :
    (statusHandler "GET" (some "job-123") [("job-123", sampleBullCompleted)]).1 =
      { code := 200, status := some JobStatus.completed, progress := some 100,
        result := sampleBullCompleted.returnvalue } ∧
    (statusHandler "GET" (some "nope") [("job-123", sampleBullCompleted)]).1 =
      { code := 404, error := some "Job not found" } ∧
    (statusHandler "GET" (some "job-123") [("job-123", sampleBullCompleted)]).2 =
      [("job-123", sampleBullCompleted)] := by
  refine ⟨?_, ?_, ?_⟩
  · exact ((C4_status_readonly_projection [("job-123", sampleBullCompleted)]
      "job-123").2.2 sampleBullCompleted (by decide)).1 rfl
  · exact (C4_status_readonly_projection [("job-123", sampleBullCompleted)]
      "nope").2.1 (by decide)
  · exact (C4_status_readonly_projection [("job-123", sampleBullCompleted)]
      "job-123").1

/-- C3 (gateway modelled from the spec, its handler being absent from
src/): the submission gateway accepts at most one submission per
submitterIdentity (client IP) per rolling 60-second window; a first
submission from an identity with no prior accepted submission is
accepted with a jobId and enqueues exactly one job, and a second
submission from the same identity within 60 seconds is rejected with
RateLimitError (HTTP 429) and enqueues nothing. -/
theorem C3_rate_limit (st : GatewayState) (ip : String) (t0 t1 : Nat)
    (u u2 : String) (flag flag2 : Bool)
    (hnone : st.lastAccepted.lookup ip = none)
    (hwin : t1 < t0 + rateLimitWindowMs) :
    (submitScan st ip t0 (some u) flag).1 =
        .accepted ("job-" ++ toString st.jobs.length) ∧
    ((submitScan st ip t0 (some u) flag).2).jobs.length = st.jobs.length + 1 ∧
    (submitScan (submitScan st ip t0 (some u) flag).2 ip t1 (some u2) flag2).1 =
        .rateLimited "Too many scan requests—please wait a minute." ∧
    ((submitScan (submitScan st ip t0 (some u) flag).2 ip t1 (some u2) flag2).1).code =
        429 ∧
    (submitScan (submitScan st ip t0 (some u) flag).2 ip t1 (some u2) flag2).2 =
        (submitScan st ip t0 (some u) flag).2 := by
  have h1 : submitScan st ip t0 (some u) flag =
      (.accepted ("job-" ++ toString st.jobs.length),
       { lastAccepted := (ip, t0) :: st.lastAccepted,
         jobs := st.jobs ++
           [{ url := u, includeAIFixes := flag, clientIP := ip, timestamp := t0 }] }) := by
    rw [submitScan]
    simp [hnone]
  have h2 : submitScan (submitScan st ip t0 (some u) flag).2 ip t1 (some u2) flag2 =
      (.rateLimited "Too many scan requests—please wait a minute.",
       (submitScan st ip t0 (some u) flag).2) := by
    rw [h1]
    rw [submitScan]
    simp [List.lookup, hwin]
  refine ⟨?_, ?_, ?_, ?_, ?_⟩
  · rw [h1]
  · rw [h1]
    simp
  · rw [h2]
  · rw [h2]
    rfl
  · rw [h2]

/-- Witness for C3: two submissions from the same IP one second apart
against an empty gateway state. -/
theorem C3_rate_limit_witness :
    (submitScan { lastAccepted := [], jobs := [] } "192.168.1.100" 0
        (some "https://example.com") true).1 = .accepted "job-0" ∧
    (submitScan
        (submitScan { lastAccepted := [], jobs := [] } "192.168.1.100" 0
          (some "https://example.com") true).2
        "192.168.1.100" 1000 (some "https://example.com") true).1 =
      .rateLimited "Too many scan requests—please wait a minute." := by
  have h := C3_rate_limit { lastAccepted := [], jobs := [] } "192.168.1.100" 0 1000
    "https://example.com" "https://example.com" true true rfl (by decide)
  exact ⟨h.1, h.2.2.1⟩

/-- One unfolding step of the retry loop when at least two attempts
remain. -/
theorem runWithRetries_step (f : Nat → Except String ScanJobResult)
    (a r : Nat) :
    runWithRetries f a (r + 2) =
      match f a with
      | .ok res => (.completed res, [])
      | .error _ =>
          ((runWithRetries f (a + 1) (r + 1)).1,
           backoffDelay backoffBaseMs a :: (runWithRetries f (a + 1) (r + 1)).2) := by
  rw [runWithRetries]
  cases f a <;> simp

/-- Final step of the retry loop on its last attempt. -/
theorem runWithRetries_last (f : Nat → Except String ScanJobResult) (a : Nat) :
    runWithRetries f a 1 =
      match f a with
      | .ok res => (.completed res, [])
      | .error e => (.failed e, []) := by
  rw [runWithRetries]
  cases f a <;> simp

/-- C6: when the fetch of the target URL fails on every attempt
(non-2xx response or network error), the queue re-offers the job up to
the configured maximum of 3 attempts with exponential backoff delays
base × 2^(attempt-1) (2000 ms then 4000 ms), after which the job is
Failed with a failure reason recording the last failure, containing
the HTTP status code (e.g. "404") when the last failure was a non-2xx
response and the network error text when it was a network error. -/
theorem C6_retry_exhaustion (envs : Nat → PipelineEnv) (jobId url : String)
    (includeAIFixes : Bool) (g : GlobalCtx)
    (h : ∀ i, 1 ≤ i → i ≤ maxAttempts →
        (∀ html, (envs i).fetch ≠ .ok html) ∧
        (envs i).elapsedMs < jobTimeoutMs) :
    runJobThroughQueue envs jobId url includeAIFixes g =
        (.failed ("Failed to scan URL: " ++ fetchErrorMsg (envs maxAttempts).fetch),
         [backoffDelay backoffBaseMs 1, backoffDelay backoffBaseMs 2]) ∧
    [backoffDelay backoffBaseMs 1, backoffDelay backoffBaseMs 2] = [2000, 4000] ∧
    (∀ status text, (envs maxAttempts).fetch = .httpError status text →
        (toString status).toList <:+:
          ("Failed to scan URL: " ++ fetchErrorMsg (envs maxAttempts).fetch).toList) ∧
    (∀ msg, (envs maxAttempts).fetch = .networkError msg →
        msg.toList <:+:
          ("Failed to scan URL: " ++ fetchErrorMsg (envs maxAttempts).fetch).toList) := by
  have p : ∀ i, 1 ≤ i → i ≤ maxAttempts →
      processScanJob (envs i) jobId url includeAIFixes g =
        .error ("Failed to scan URL: " ++ fetchErrorMsg (envs i).fetch) := by
    intro i hi1 hi2
    obtain ⟨hnf, he⟩ := h i hi1 hi2
    rw [processScanJob, if_neg (by omega)]
    rw [processScansWithTimeout]
    cases hf : (envs i).fetch with
    | ok html => exact absurd hf (hnf html)
    | httpError status text => simp [hf, fetchErrorMsg]
    | networkError msg => simp [hf, fetchErrorMsg]
  have e1 := p 1 (by decide) (by decide)
  have e2 := p 2 (by decide) (by decide)
  have e3 := p 3 (by decide) (by decide)
  have key : runJobThroughQueue envs jobId url includeAIFixes g =
      (.failed ("Failed to scan URL: " ++ fetchErrorMsg (envs 3).fetch),
       [backoffDelay backoffBaseMs 1, backoffDelay backoffBaseMs 2]) := by
    rw [runJobThroughQueue]
    rw [show maxAttempts = 1 + 2 from rfl]
    rw [runWithRetries_step]
    simp only [e1]
    rw [show (1 : Nat) + 1 = 0 + 2 from rfl]
    rw [runWithRetries_step]
    simp only [e2]
    rw [show (0 : Nat) + 1 = 1 from rfl]
    rw [runWithRetries_last]
    simp only [e3]
  refine ⟨key, by norm_num [backoffDelay, backoffBaseMs], ?_, ?_⟩
  · intro status text hf
    rw [hf]
    have hmsg : "Failed to scan URL: " ++ fetchErrorMsg (FetchOutcome.httpError status text) =
        "Failed to scan URL: HTTP " ++ toString status ++ (": " ++ text) := by
      show "Failed to scan URL: " ++ ("HTTP " ++ toString status ++ ": " ++ text) = _
      simp only [← String.append_assoc]
      rfl
    rw [hmsg]
    exact middle_toList_infix "Failed to scan URL: HTTP " (toString status) (": " ++ text)
  · intro msg hf
    rw [hf]
    exact List.IsSuffix.isInfix
      (by rw [show ("Failed to scan URL: " ++
              fetchErrorMsg (FetchOutcome.networkError msg)).toList =
            "Failed to scan URL: ".toList ++ msg.toList from String.data_append _ _]
          exact List.suffix_append _ _)

/-- Witness for C6: every attempt runs against a fetch stub returning
HTTP 404. -/
theorem C6_retry_exhaustion_witness :
    runJobThroughQueue (fun _ => env404) "1" "https://example.com" true sampleG =
      (.failed "Failed to scan URL: HTTP 404: Not Found", [2000, 4000]) ∧
    "404".toList <:+: ("Failed to scan URL: HTTP 404: Not Found").toList := by
  have h := C6_retry_exhaustion (fun _ => env404) "1" "https://example.com" true sampleG
    (fun i _ _ =>
      ⟨fun html hc => FetchOutcome.noConfusion hc,
       (by decide : env404.elapsedMs < jobTimeoutMs)⟩)
  exact ⟨h.1, h.2.2.1 404 "Not Found" rfl⟩

/-- C7: the 120-second whole-job ceiling wraps the entire per-job
pipeline: when the pipeline would take at least 120000 ms the job
fails with the timeout-specific reason of `createTimeoutPromise`,
which contains the marker "timed out after 120000ms"; the reason of
the 30-second per-fetch timeout does not contain that marker and is a
different string for every jobId, so a caller can distinguish a slow
fetch from a pipeline that ran too long; a fetch-timeout abort inside
the ceiling instead fails the job with the fetch-specific reason. -/
theorem C7_whole_job_timeout (env : PipelineEnv) (jobId url : String)
    (includeAIFixes : Bool) (g : GlobalCtx)
    (hEl : env.elapsedMs ≥ jobTimeoutMs) :
    processScanJob env jobId url includeAIFixes g =
        .error ("Failed to scan URL: " ++ jobTimeoutReason jobId) ∧
    " timed out after 120000ms".toList <:+: (jobTimeoutReason jobId).toList ∧
    ¬ (" timed out after 120000ms".toList <:+: fetchTimeoutReason.toList) ∧
    jobTimeoutReason jobId ≠ fetchTimeoutReason ∧
    (∀ env2 : PipelineEnv, env2.elapsedMs < jobTimeoutMs →
        env2.fetch = .networkError fetchTimeoutReason →
        processScanJob env2 jobId url includeAIFixes g =
          .error ("Failed to scan URL: " ++ fetchTimeoutReason)) := by
  have hsplit : jobTimeoutReason jobId =
      ("Job " ++ jobId) ++ " timed out after 120000ms" := by
    rw [jobTimeoutReason]
    rw [String.append_assoc, String.append_assoc]
    rfl
  have hinfix : " timed out after 120000ms".toList <:+: (jobTimeoutReason jobId).toList := by
    rw [hsplit]
    exact List.IsSuffix.isInfix
      (by rw [show (("Job " ++ jobId) ++ " timed out after 120000ms").toList =
            ("Job " ++ jobId).toList ++ " timed out after 120000ms".toList from
            String.data_append _ _]
          exact List.suffix_append _ _)
  have hnot : ¬ (" timed out after 120000ms".toList <:+: fetchTimeoutReason.toList) := by
    decide
  refine ⟨?_, hinfix, hnot, ?_, ?_⟩
  · rw [processScanJob, if_pos hEl]
  · intro hEq
    rw [hEq] at hinfix
    exact hnot hinfix
  · intro env2 h2 hf2
    rw [processScanJob, if_neg (by omega)]
    rw [processScansWithTimeout]
    simp [hf2]

/-- Witness for C7 at a pipeline whose wall time exceeds the
ceiling. -/
theorem C7_whole_job_timeout_witness :
    processScanJob envTimeout "1" "https://example.com" true sampleG =
        .error ("Failed to scan URL: " ++ jobTimeoutReason "1") ∧
    jobTimeoutReason "1" ≠ fetchTimeoutReason := by
  have h := C7_whole_job_timeout envTimeout "1" "https://example.com" true sampleG
    (by decide)
  exact ⟨h.1, h.2.2.2.1⟩

end Scanner
